import Mathlib

/-!
Shallow embedding of the starlink_exporter collector core.

Sources embedded:
- `internal/collector` bandwidth tracker: `BandwidthTracker`, `processHistory`,
  `update`, and the snapshot getters (`GetCounters`, `GetEnergyJoules`,
  `GetPingMetrics`, `GetLastError`).
- `internal/collector/starlink.go`: the `Collect` scrape path of
  `StarlinkCollector`, modelled as the list of metrics it emits.
- `internal/client`: the `HistoryResponse` / `StatusResponse` data model.

Conventions: Go `float64` samples and totals are embedded as `ℚ` (the
integration algorithm only adds, divides by the constants 8 and 1000, and
compares nothing, so its branch structure is value-exact); Go `uint64`
sequence counters are embedded as `ℕ` (the code subtracts only after ruling
out `current < lastCurrent`, so no wraparound is reachable); the Go `error`
field is embedded as `Option String`; calls to the structured logger are
embedded as a list of emitted `LogEvent`s so that logging-level behaviour is
part of the model.  The Go field `initialized` is named `inited` here.
-/

namespace Starlink

/-- Severity levels of the structured logger (`slog`). -/
inductive LogLevel
  | debug
  | info
  | warn
  | error
deriving DecidableEq, Repr

/-- One call to the structured logger: severity plus the (constant) message. -/
structure LogEvent where
  level : LogLevel
  msg : String
deriving DecidableEq, Repr

/-- `client.HistoryResponse`: the sequence counter `Current` and the five
parallel circular sample buffers. -/
structure HistoryResponse where
  Current : ℕ
  DownlinkThroughputBps : List ℚ
  UplinkThroughputBps : List ℚ
  PopPingLatencyMs : List ℚ
  PopPingDropRate : List ℚ
  PowerIn : List ℚ
deriving DecidableEq, Repr

/-- Mutable accumulator state of `collector.BandwidthTracker` (the lock,
client, logger and channel fields of the Go struct carry no accumulator
state and are not part of the embedding). -/
structure BandwidthTracker where
  lastCurrent : ℕ
  downloadBytesTotal : ℚ
  uploadBytesTotal : ℚ
  energyJoulesTotal : ℚ
  pingLatencySecondsSum : ℚ
  pingLatencySampleCount : ℚ
  pingDropCount : ℚ
  lastError : Option String
  inited : Bool
deriving DecidableEq, Repr

/-- `collector.NewBandwidthTracker`: all accumulator fields start at their
Go zero values. -/
def NewBandwidthTracker : BandwidthTracker :=
  { lastCurrent := 0
    downloadBytesTotal := 0
    uploadBytesTotal := 0
    energyJoulesTotal := 0
    pingLatencySecondsSum := 0
    pingLatencySampleCount := 0
    pingDropCount := 0
    lastError := none
    inited := false }

/-- The buffer indices visited by the integration loop of `processHistory`:
for `i` in `[0, timeDelta)` the loop computes `t := lastCurrent + i` and
`idx := t % bufferLen`. -/
def visitedIndices (lastCurrent timeDelta bufferLen : ℕ) : List ℕ :=
  (List.range timeDelta).map (fun i => (lastCurrent + i) % bufferLen)

/-- `collector.(*BandwidthTracker).processHistory`, returning the updated
accumulator state together with the log events the call emits, in order. -/
def processHistory (bt0 : BandwidthTracker) (history : HistoryResponse) :
    BandwidthTracker × List LogEvent :=
  -- Clear error on successful fetch
  let bt : BandwidthTracker := { bt0 with lastError := none }
  -- Validate array lengths match
  let arrayLen := history.DownlinkThroughputBps.length
  if arrayLen = 0 then
    (bt, [⟨.warn, "Empty history arrays"⟩])
  else if history.UplinkThroughputBps.length ≠ arrayLen ∨
      history.PowerIn.length ≠ arrayLen ∨
      history.PopPingLatencyMs.length ≠ arrayLen ∨
      history.PopPingDropRate.length ≠ arrayLen then
    (bt, [⟨.error, "Array length mismatch"⟩])
  else
    let current := history.Current
    -- On first run, just record the current timestamp
    if bt.inited = false then
      ({ bt with lastCurrent := current, inited := true },
        [⟨.info, "Bandwidth tracker initialized"⟩])
    -- Detect counter reset (dishy restart)
    else if current < bt.lastCurrent then
      ({ bt with lastCurrent := current },
        [⟨.warn, "Counter reset detected"⟩])
    else
      let timeDelta0 := current - bt.lastCurrent
      if timeDelta0 = 0 then
        (bt, [])
      else
        let bufferLen := arrayLen
        -- Cap timeDelta to avoid processing more than the buffer size
        let capLog : List LogEvent :=
          if bufferLen < timeDelta0 then
            [⟨.warn, "Time delta exceeds history buffer size"⟩]
          else []
        let timeDelta := if bufferLen < timeDelta0 then bufferLen else timeDelta0
        let idxs := visitedIndices bt.lastCurrent timeDelta bufferLen
        let downloadDelta :=
          (idxs.map (fun idx => history.DownlinkThroughputBps.getD idx 0 / 8)).sum
        let uploadDelta :=
          (idxs.map (fun idx => history.UplinkThroughputBps.getD idx 0 / 8)).sum
        let energyDelta :=
          (idxs.map (fun idx => history.PowerIn.getD idx 0)).sum
        let pingLatencyDelta :=
          (idxs.map (fun idx => history.PopPingLatencyMs.getD idx 0 / 1000)).sum
        let pingDropDelta :=
          (idxs.map (fun idx => history.PopPingDropRate.getD idx 0)).sum
        ({ bt with
            downloadBytesTotal := bt.downloadBytesTotal + downloadDelta
            uploadBytesTotal := bt.uploadBytesTotal + uploadDelta
            energyJoulesTotal := bt.energyJoulesTotal + energyDelta
            pingLatencySecondsSum := bt.pingLatencySecondsSum + pingLatencyDelta
            pingLatencySampleCount := bt.pingLatencySampleCount + (timeDelta : ℚ)
            pingDropCount := bt.pingDropCount + pingDropDelta
            lastCurrent := current },
          capLog ++ [⟨.debug, "Metrics update"⟩])

/-- `collector.(*BandwidthTracker).update`: the per-tick poller step; a fetch
failure records the error on `lastError` and mutates nothing else, a success
forwards the snapshot to `processHistory`. -/
def update (bt : BandwidthTracker) (fetch : Except String HistoryResponse) :
    BandwidthTracker × List LogEvent :=
  match fetch with
  | .error e => ({ bt with lastError := some e }, [⟨.warn, "Failed to get history"⟩])
  | .ok history => processHistory bt history

/-- `GetCounters`: read-only snapshot of the bandwidth counters. -/
def GetCounters (bt : BandwidthTracker) : ℚ × ℚ :=
  (bt.downloadBytesTotal, bt.uploadBytesTotal)

/-- `GetEnergyJoules`: read-only snapshot of the energy counter. -/
def GetEnergyJoules (bt : BandwidthTracker) : ℚ :=
  bt.energyJoulesTotal

/-- `GetPingMetrics`: read-only snapshot of the ping summary counters. -/
def GetPingMetrics (bt : BandwidthTracker) : ℚ × ℚ × ℚ :=
  (bt.pingLatencySecondsSum, bt.pingLatencySampleCount, bt.pingDropCount)

/-- `GetLastError`: read-only snapshot of the last error. -/
def GetLastError (bt : BandwidthTracker) : Option String :=
  bt.lastError

/-- A sample transport-failure message used in concrete instances. -/
def transportFailureMsg : String := "transport failure"

/-- A sample fetch-failure message used in concrete instances. -/
def boomMsg : String := "boom"

/-- The validation predicate of `processHistory` (step 1 of the spec algorithm): a non-empty buffer and all five arrays of equal length. -/
def HistoryResponse.Valid (h : HistoryResponse) : Prop :=
  h.DownlinkThroughputBps.length ≠ 0 ∧
  h.UplinkThroughputBps.length = h.DownlinkThroughputBps.length ∧
  h.PowerIn.length = h.DownlinkThroughputBps.length ∧
  h.PopPingLatencyMs.length = h.DownlinkThroughputBps.length ∧
  h.PopPingDropRate.length = h.DownlinkThroughputBps.length

instance (h : HistoryResponse) : Decidable h.Valid := by
  unfold HistoryResponse.Valid; infer_instance

/-- All sample values of a snapshot are nonnegative. -/
def HistoryResponse.Nonneg (h : HistoryResponse) : Prop :=
  (∀ x ∈ h.DownlinkThroughputBps, 0 ≤ x) ∧
  (∀ x ∈ h.UplinkThroughputBps, 0 ≤ x) ∧
  (∀ x ∈ h.PowerIn, 0 ≤ x) ∧
  (∀ x ∈ h.PopPingLatencyMs, 0 ≤ x) ∧
  (∀ x ∈ h.PopPingDropRate, 0 ≤ x)

instance (h : HistoryResponse) : Decidable h.Nonneg := by
  unfold HistoryResponse.Nonneg; infer_instance

/-- A fetch result with nonnegative samples (a failed fetch carries none). -/
def FetchNonneg : Except String HistoryResponse → Prop
  | .error _ => True
  | .ok h => h.Nonneg

instance (f : Except String HistoryResponse) : Decidable (FetchNonneg f) := by
  unfold FetchNonneg; cases f <;> infer_instance

/-- Componentwise order on the six cumulative totals. -/
def totalsLe (a b : BandwidthTracker) : Prop :=
  a.downloadBytesTotal ≤ b.downloadBytesTotal ∧
  a.uploadBytesTotal ≤ b.uploadBytesTotal ∧
  a.energyJoulesTotal ≤ b.energyJoulesTotal ∧
  a.pingLatencySecondsSum ≤ b.pingLatencySecondsSum ∧
  a.pingLatencySampleCount ≤ b.pingLatencySampleCount ∧
  a.pingDropCount ≤ b.pingDropCount

instance (a b : BandwidthTracker) : Decidable (totalsLe a b) := by
  unfold totalsLe; infer_instance

/-- The poller lifetime as a fold of per-tick `update` steps over the
sequence of fetch results. -/
def applyUpdates (bt : BandwidthTracker) (fs : List (Except String HistoryResponse)) :
    BandwidthTracker :=
  fs.foldl (fun s f => (update s f).1) bt

/-- The number of samples `processHistory` integrates on its integration
path: the raw sequence delta, capped at the buffer length. -/
def procDelta (bt : BandwidthTracker) (h : HistoryResponse) : ℕ :=
  if h.DownlinkThroughputBps.length < h.Current - bt.lastCurrent
  then h.DownlinkThroughputBps.length
  else h.Current - bt.lastCurrent

/-- On the integration path (valid arrays, initialized, strictly increasing
sequence) `processHistory` adds the per-sample converted sums over the
visited window and advances `lastCurrent`. -/
theorem processHistory_integrate (bt : BandwidthTracker) (h : HistoryResponse)
    (hv : h.Valid) (hi : bt.inited = true) (hlt : bt.lastCurrent < h.Current) :
    processHistory bt h =
      ({ bt with
          lastError := none
          downloadBytesTotal := bt.downloadBytesTotal +
            ((visitedIndices bt.lastCurrent (procDelta bt h)
                h.DownlinkThroughputBps.length).map
              (fun idx => h.DownlinkThroughputBps.getD idx 0 / 8)).sum
          uploadBytesTotal := bt.uploadBytesTotal +
            ((visitedIndices bt.lastCurrent (procDelta bt h)
                h.DownlinkThroughputBps.length).map
              (fun idx => h.UplinkThroughputBps.getD idx 0 / 8)).sum
          energyJoulesTotal := bt.energyJoulesTotal +
            ((visitedIndices bt.lastCurrent (procDelta bt h)
                h.DownlinkThroughputBps.length).map
              (fun idx => h.PowerIn.getD idx 0)).sum
          pingLatencySecondsSum := bt.pingLatencySecondsSum +
            ((visitedIndices bt.lastCurrent (procDelta bt h)
                h.DownlinkThroughputBps.length).map
              (fun idx => h.PopPingLatencyMs.getD idx 0 / 1000)).sum
          pingLatencySampleCount := bt.pingLatencySampleCount + (procDelta bt h : ℚ)
          pingDropCount := bt.pingDropCount +
            ((visitedIndices bt.lastCurrent (procDelta bt h)
                h.DownlinkThroughputBps.length).map
              (fun idx => h.PopPingDropRate.getD idx 0)).sum
          lastCurrent := h.Current },
        (if h.DownlinkThroughputBps.length < h.Current - bt.lastCurrent then
          [⟨.warn, "Time delta exceeds history buffer size"⟩]
        else []) ++ [⟨.debug, "Metrics update"⟩]) := by
  obtain ⟨h0, h1, h2, h3, h4⟩ := hv
  have hne : ¬ (h.Current - bt.lastCurrent = 0) := Nat.sub_ne_zero_of_lt hlt
  have hnlt : ¬ (h.Current < bt.lastCurrent) := Nat.not_lt.mpr hlt.le
  simp only [processHistory, procDelta, h1, h2, h3, h4, hi]
  rw [if_neg h0]
  simp [hne, hnlt]

/-- On an empty-arrays snapshot, `processHistory` only clears `lastError` and
logs a warning. -/
theorem processHistory_empty (bt : BandwidthTracker) (h : HistoryResponse)
    (h0 : h.DownlinkThroughputBps.length = 0) :
    processHistory bt h =
      ({ bt with lastError := none }, [⟨.warn, "Empty history arrays"⟩]) := by
  simp only [processHistory]
  rw [if_pos h0]

/-- On a length-mismatched snapshot, `processHistory` only clears `lastError`
and logs at error level. -/
theorem processHistory_mismatch (bt : BandwidthTracker) (h : HistoryResponse)
    (h0 : h.DownlinkThroughputBps.length ≠ 0)
    (hm : h.UplinkThroughputBps.length ≠ h.DownlinkThroughputBps.length ∨
      h.PowerIn.length ≠ h.DownlinkThroughputBps.length ∨
      h.PopPingLatencyMs.length ≠ h.DownlinkThroughputBps.length ∨
      h.PopPingDropRate.length ≠ h.DownlinkThroughputBps.length) :
    processHistory bt h =
      ({ bt with lastError := none }, [⟨.error, "Array length mismatch"⟩]) := by
  simp only [processHistory]
  rw [if_neg h0, if_pos hm]

/-- On the first valid snapshot, `processHistory` records the sequence and
marks the tracker initialized without integrating. -/
theorem processHistory_first (bt : BandwidthTracker) (h : HistoryResponse)
    (hv : h.Valid) (hi : bt.inited = false) :
    processHistory bt h =
      ({ bt with lastError := none, lastCurrent := h.Current, inited := true },
        [⟨.info, "Bandwidth tracker initialized"⟩]) := by
  obtain ⟨h0, h1, h2, h3, h4⟩ := hv
  simp only [processHistory, h1, h2, h3, h4, hi]
  rw [if_neg h0]
  simp

/-- On a sequence regression, `processHistory` only stores the lower sequence
(and clears `lastError`), leaving every total untouched. -/
theorem processHistory_reset (bt : BandwidthTracker) (h : HistoryResponse)
    (hv : h.Valid) (hi : bt.inited = true) (hlt : h.Current < bt.lastCurrent) :
    processHistory bt h =
      ({ bt with lastError := none, lastCurrent := h.Current },
        [⟨.warn, "Counter reset detected"⟩]) := by
  obtain ⟨h0, h1, h2, h3, h4⟩ := hv
  simp only [processHistory, h1, h2, h3, h4, hi]
  rw [if_neg h0]
  simp [hlt]

/-- On an unchanged sequence, `processHistory` only clears `lastError`. -/
theorem processHistory_same (bt : BandwidthTracker) (h : HistoryResponse)
    (hv : h.Valid) (hi : bt.inited = true) (heq : h.Current = bt.lastCurrent) :
    processHistory bt h = ({ bt with lastError := none }, []) := by
  obtain ⟨h0, h1, h2, h3, h4⟩ := hv
  have hnlt : ¬ (h.Current < bt.lastCurrent) := by omega
  have hz : h.Current - bt.lastCurrent = 0 := by omega
  simp only [processHistory, h1, h2, h3, h4, hi]
  rw [if_neg h0]
  simp [hnlt, hz]

/-- Reading any index (with default 0) of a nonnegative list is nonnegative. -/
theorem getD_nonneg :
    ∀ (xs : List ℚ) (i : ℕ), (∀ x ∈ xs, 0 ≤ x) → 0 ≤ xs.getD i 0
  | [], _, _ => le_refl 0
  | x :: _, 0, hxs => hxs x (List.mem_cons_self _ _)
  | _ :: xs, i + 1, hxs =>
    getD_nonneg xs i (fun y hy => hxs y (List.mem_cons_of_mem _ hy))

/-- `totalsLe` is reflexive. -/
theorem totalsLe_refl (a : BandwidthTracker) : totalsLe a a := by
  unfold totalsLe
  exact ⟨le_refl _, le_refl _, le_refl _, le_refl _, le_refl _, le_refl _⟩

/-- `totalsLe` is transitive. -/
theorem totalsLe_trans {a b c : BandwidthTracker}
    (hab : totalsLe a b) (hbc : totalsLe b c) : totalsLe a c := by
  obtain ⟨d1, u1, e1, s1, c1, p1⟩ := hab
  obtain ⟨d2, u2, e2, s2, c2, p2⟩ := hbc
  exact ⟨d1.trans d2, u1.trans u2, e1.trans e2, s1.trans s2, c1.trans c2, p1.trans p2⟩

/-- A single `processHistory` step never decreases any total when the
samples of the snapshot are nonnegative. -/
theorem processHistory_totalsLe (bt : BandwidthTracker) (h : HistoryResponse)
    (hn : h.Nonneg) : totalsLe bt (processHistory bt h).1 := by
  obtain ⟨n1, n2, n3, n4, n5⟩ := hn
  have sum_nn : ∀ (xs : List ℚ) (conv : ℚ → ℚ) (idxs : List ℕ),
      (∀ x ∈ xs, 0 ≤ x) → (∀ q : ℚ, 0 ≤ q → 0 ≤ conv q) →
      0 ≤ (idxs.map (fun idx => conv (xs.getD idx 0))).sum := by
    intro xs conv idxs hxs hconv
    apply List.sum_nonneg
    intro q hq
    obtain ⟨idx, _, rfl⟩ := List.mem_map.mp hq
    exact hconv _ (getD_nonneg xs idx hxs)
  by_cases h0 : h.DownlinkThroughputBps.length = 0
  · rw [processHistory_empty bt h h0]
    exact totalsLe_refl _
  by_cases hm : h.UplinkThroughputBps.length ≠ h.DownlinkThroughputBps.length ∨
      h.PowerIn.length ≠ h.DownlinkThroughputBps.length ∨
      h.PopPingLatencyMs.length ≠ h.DownlinkThroughputBps.length ∨
      h.PopPingDropRate.length ≠ h.DownlinkThroughputBps.length
  · rw [processHistory_mismatch bt h h0 hm]
    exact totalsLe_refl _
  push_neg at hm
  have hv : h.Valid := ⟨h0, hm.1, hm.2.1, hm.2.2.1, hm.2.2.2⟩
  cases hi : bt.inited with
  | false =>
    rw [processHistory_first bt h hv hi]
    exact totalsLe_refl _
  | true =>
    rcases lt_trichotomy h.Current bt.lastCurrent with hlt | heq | hgt
    · rw [processHistory_reset bt h hv hi hlt]
      exact totalsLe_refl _
    · rw [processHistory_same bt h hv hi heq]
      exact totalsLe_refl _
    · rw [processHistory_integrate bt h hv hi hgt]
      refine ⟨?_, ?_, ?_, ?_, ?_, ?_⟩ <;>
        simp only [le_add_iff_nonneg_right]
      · exact sum_nn _ (fun q => q / 8) _ n1
          (fun q hq => div_nonneg hq (by norm_num))
      · exact sum_nn _ (fun q => q / 8) _ n2
          (fun q hq => div_nonneg hq (by norm_num))
      · exact sum_nn _ (fun q => q) _ n3 (fun q hq => hq)
      · exact sum_nn _ (fun q => q / 1000) _ n4
          (fun q hq => div_nonneg hq (by norm_num))
      · positivity
      · exact sum_nn _ (fun q => q) _ n5 (fun q hq => hq)

/-- A single poller tick (`update`) never decreases any total when the fetch
result carries nonnegative samples. -/
theorem update_totalsLe (bt : BandwidthTracker)
    (f : Except String HistoryResponse) (hn : FetchNonneg f) :
    totalsLe bt (update bt f).1 := by
  cases f with
  | error e => exact totalsLe_refl _
  | ok h => exact processHistory_totalsLe bt h hn

/-- The integration window has exactly `timeDelta` entries. -/
theorem visitedIndices_length (s td N : ℕ) :
    (visitedIndices s td N).length = td := by
  simp [visitedIndices]

/-- Every visited index is a valid buffer index. -/
theorem visitedIndices_lt (s td N : ℕ) (hN : 0 < N) :
    ∀ j ∈ visitedIndices s td N, j < N := by
  intro j hj
  unfold visitedIndices at hj
  obtain ⟨i, _, rfl⟩ := List.mem_map.mp hj
  exact Nat.mod_lt _ hN

/-- A full-buffer window visits pairwise distinct indices. -/
theorem visitedIndices_nodup (s N : ℕ) : (visitedIndices s N N).Nodup := by
  unfold visitedIndices
  refine List.Nodup.map_on ?_ (List.nodup_range N)
  intro i hi j hj hij
  rw [List.mem_range] at hi hj
  have : i % N = j % N :=
    Nat.ModEq.add_left_cancel' s hij
  rwa [Nat.mod_eq_of_lt hi, Nat.mod_eq_of_lt hj] at this

/-- A full-buffer window visits every buffer index. -/
theorem visitedIndices_toFinset (s N : ℕ) (hN : 0 < N) :
    (visitedIndices s N N).toFinset = Finset.range N := by
  apply Finset.eq_of_subset_of_card_le
  · intro j hj
    rw [List.mem_toFinset] at hj
    exact Finset.mem_range.mpr (visitedIndices_lt s N N hN j hj)
  · rw [Finset.card_range,
      List.toFinset_card_of_nodup (visitedIndices_nodup s N),
      visitedIndices_length]

/-- A full-buffer window visits each buffer index exactly once. -/
theorem visitedIndices_count (s N : ℕ) (hN : 0 < N) (j : ℕ) (hj : j < N) :
    (visitedIndices s N N).count j = 1 := by
  apply List.count_eq_one_of_mem (visitedIndices_nodup s N)
  rw [← List.mem_toFinset, visitedIndices_toFinset s N hN]
  exact Finset.mem_range.mpr hj

/-- `client.DeviceInfo`. -/
structure DeviceInfo where
  ID : String
  HardwareVersion : String
  SoftwareVersion : String
  CountryCode : String
  BootCount : ℤ
deriving DecidableEq, Repr

/-- `client.DeviceState`. -/
structure DeviceState where
  UptimeS : ℕ
deriving DecidableEq, Repr

/-- `client.ObstructionStats`. -/
structure ObstructionStats where
  FractionObstructed : ℚ
  ValidS : ℚ
  TimeObstructed : ℚ
deriving DecidableEq, Repr

/-- `client.GPSStats`. -/
structure GPSStats where
  GPSValid : Bool
  GPSSats : ℤ
deriving DecidableEq, Repr

/-- `client.StatusResponse`. -/
structure StatusResponse where
  DeviceInfo : DeviceInfo
  DeviceState : DeviceState
  ObstructionStats : ObstructionStats
  DownlinkThroughputBps : ℚ
  UplinkThroughputBps : ℚ
  PopPingLatencyMs : ℚ
  BoresightAzimuthDeg : ℚ
  BoresightElevationDeg : ℚ
  GPSStats : GPSStats
  EthSpeedMbps : ℤ
  IsSnrAboveNoiseFloor : Bool
deriving DecidableEq, Repr

/-- One metric sample sent on the `Collect` channel: metric name, value, and
label values (empty for all metrics except the info metric). -/
structure Metric where
  name : String
  value : ℚ
  labels : List String
deriving DecidableEq, Repr

/-- `collector.(*StarlinkCollector).Collect`: the ordered list of metrics one
scrape emits, as a function of the status fetch result and the current
tracker state.  The error path emits availability 0 plus the six cumulative
counters only; the success path additionally emits every gauge and the info
metric. -/
def Collect (bt : BandwidthTracker) (status : Except String StatusResponse) :
    List Metric :=
  match status with
  | .error _ =>
    [⟨"starlink_up", 0, []⟩,
     ⟨"starlink_download_bytes_total", (GetCounters bt).1, []⟩,
     ⟨"starlink_upload_bytes_total", (GetCounters bt).2, []⟩,
     ⟨"starlink_energy_joules_total", GetEnergyJoules bt, []⟩,
     ⟨"starlink_ping_latency_seconds_sum", (GetPingMetrics bt).1, []⟩,
     ⟨"starlink_ping_latency_seconds_count", (GetPingMetrics bt).2.1, []⟩,
     ⟨"starlink_ping_drop_total", (GetPingMetrics bt).2.2, []⟩]
  | .ok s =>
    [⟨"starlink_up", 1, []⟩,
     ⟨"starlink_download_bytes_total", (GetCounters bt).1, []⟩,
     ⟨"starlink_upload_bytes_total", (GetCounters bt).2, []⟩,
     ⟨"starlink_energy_joules_total", GetEnergyJoules bt, []⟩,
     ⟨"starlink_ping_latency_seconds_sum", (GetPingMetrics bt).1, []⟩,
     ⟨"starlink_ping_latency_seconds_count", (GetPingMetrics bt).2.1, []⟩,
     ⟨"starlink_ping_drop_total", (GetPingMetrics bt).2.2, []⟩,
     ⟨"starlink_downlink_throughput_bps", s.DownlinkThroughputBps, []⟩,
     ⟨"starlink_uplink_throughput_bps", s.UplinkThroughputBps, []⟩,
     ⟨"starlink_pop_ping_latency_ms", s.PopPingLatencyMs, []⟩,
     ⟨"starlink_uptime_seconds", (s.DeviceState.UptimeS : ℚ), []⟩,
     ⟨"starlink_obstruction_fraction", s.ObstructionStats.FractionObstructed, []⟩,
     ⟨"starlink_obstruction_valid_seconds", s.ObstructionStats.ValidS, []⟩,
     ⟨"starlink_gps_satellites", (s.GPSStats.GPSSats : ℚ), []⟩,
     ⟨"starlink_gps_valid", if s.GPSStats.GPSValid then 1 else 0, []⟩,
     ⟨"starlink_eth_speed_mbps", (s.EthSpeedMbps : ℚ), []⟩,
     ⟨"starlink_snr_above_noise_floor", if s.IsSnrAboveNoiseFloor then 1 else 0, []⟩,
     ⟨"starlink_info", 1,
       [s.DeviceInfo.ID, s.DeviceInfo.HardwareVersion,
        s.DeviceInfo.SoftwareVersion, s.DeviceInfo.CountryCode]⟩]

/-- The names of the ten instantaneous gauges of the success path (the
availability indicator `starlink_up` and the info metric are accounted
separately). -/
def gaugeNames : List String :=
  ["starlink_downlink_throughput_bps", "starlink_uplink_throughput_bps",
   "starlink_pop_ping_latency_ms", "starlink_uptime_seconds",
   "starlink_obstruction_fraction", "starlink_obstruction_valid_seconds",
   "starlink_gps_satellites", "starlink_gps_valid",
   "starlink_eth_speed_mbps", "starlink_snr_above_noise_floor"]

/-- C5: the first `Update` on the uninitialized accumulator (as created at
process start) leaves all six cumulative totals at zero, marks the
accumulator initialized, and stores `lastSequence` equal to the sequence of
the snapshot, performing no integration. -/
theorem C5_first_update (h : HistoryResponse) (hv : h.Valid) :
    (processHistory NewBandwidthTracker h).1.downloadBytesTotal = 0 ∧
    (processHistory NewBandwidthTracker h).1.uploadBytesTotal = 0 ∧
    (processHistory NewBandwidthTracker h).1.energyJoulesTotal = 0 ∧
    (processHistory NewBandwidthTracker h).1.pingLatencySecondsSum = 0 ∧
    (processHistory NewBandwidthTracker h).1.pingLatencySampleCount = 0 ∧
    (processHistory NewBandwidthTracker h).1.pingDropCount = 0 ∧
    (processHistory NewBandwidthTracker h).1.inited = true ∧
    (processHistory NewBandwidthTracker h).1.lastCurrent = h.Current := by
  rw [processHistory_first NewBandwidthTracker h hv rfl]
  exact ⟨rfl, rfl, rfl, rfl, rfl, rfl, rfl, rfl⟩

/-- Witness for C5 at a concrete valid snapshot. -/
theorem C5_first_update_witness :
    (HistoryResponse.mk 5 [1] [2] [3] [4] [6]).Valid ∧
    ((processHistory NewBandwidthTracker
        (HistoryResponse.mk 5 [1] [2] [3] [4] [6])).1.downloadBytesTotal = 0 ∧
      (processHistory NewBandwidthTracker
        (HistoryResponse.mk 5 [1] [2] [3] [4] [6])).1.uploadBytesTotal = 0 ∧
      (processHistory NewBandwidthTracker
        (HistoryResponse.mk 5 [1] [2] [3] [4] [6])).1.energyJoulesTotal = 0 ∧
      (processHistory NewBandwidthTracker
        (HistoryResponse.mk 5 [1] [2] [3] [4] [6])).1.pingLatencySecondsSum = 0 ∧
      (processHistory NewBandwidthTracker
        (HistoryResponse.mk 5 [1] [2] [3] [4] [6])).1.pingLatencySampleCount = 0 ∧
      (processHistory NewBandwidthTracker
        (HistoryResponse.mk 5 [1] [2] [3] [4] [6])).1.pingDropCount = 0 ∧
      (processHistory NewBandwidthTracker
        (HistoryResponse.mk 5 [1] [2] [3] [4] [6])).1.inited = true ∧
      (processHistory NewBandwidthTracker
        (HistoryResponse.mk 5 [1] [2] [3] [4] [6])).1.lastCurrent = 5) :=
  ⟨by decide, C5_first_update (HistoryResponse.mk 5 [1] [2] [3] [4] [6]) (by decide)⟩

/-- C4: on an initialized accumulator, a valid snapshot whose sequence is
strictly below `lastSequence` (reset condition) leaves all six cumulative
totals unchanged and sets `lastSequence` to the new, lower value; no
integration occurs. -/
theorem C4_sequence_regression (bt : BandwidthTracker) (h : HistoryResponse)
    (hv : h.Valid) (hi : bt.inited = true) (hlt : h.Current < bt.lastCurrent) :
    (processHistory bt h).1.downloadBytesTotal = bt.downloadBytesTotal ∧
    (processHistory bt h).1.uploadBytesTotal = bt.uploadBytesTotal ∧
    (processHistory bt h).1.energyJoulesTotal = bt.energyJoulesTotal ∧
    (processHistory bt h).1.pingLatencySecondsSum = bt.pingLatencySecondsSum ∧
    (processHistory bt h).1.pingLatencySampleCount = bt.pingLatencySampleCount ∧
    (processHistory bt h).1.pingDropCount = bt.pingDropCount ∧
    (processHistory bt h).1.lastCurrent = h.Current := by
  rw [processHistory_reset bt h hv hi hlt]
  exact ⟨rfl, rfl, rfl, rfl, rfl, rfl, rfl⟩

/-- Witness for C4 at a concrete initialized state and regressing snapshot. -/
theorem C4_sequence_regression_witness :
    (HistoryResponse.mk 500 [1] [2] [3] [4] [6]).Valid ∧
    (BandwidthTracker.mk 1000 7 8 9 10 11 12 none true).inited = true ∧
    500 < 1000 ∧
    ((processHistory (BandwidthTracker.mk 1000 7 8 9 10 11 12 none true)
        (HistoryResponse.mk 500 [1] [2] [3] [4] [6])).1.downloadBytesTotal = 7 ∧
      (processHistory (BandwidthTracker.mk 1000 7 8 9 10 11 12 none true)
        (HistoryResponse.mk 500 [1] [2] [3] [4] [6])).1.uploadBytesTotal = 8 ∧
      (processHistory (BandwidthTracker.mk 1000 7 8 9 10 11 12 none true)
        (HistoryResponse.mk 500 [1] [2] [3] [4] [6])).1.energyJoulesTotal = 9 ∧
      (processHistory (BandwidthTracker.mk 1000 7 8 9 10 11 12 none true)
        (HistoryResponse.mk 500 [1] [2] [3] [4] [6])).1.pingLatencySecondsSum = 10 ∧
      (processHistory (BandwidthTracker.mk 1000 7 8 9 10 11 12 none true)
        (HistoryResponse.mk 500 [1] [2] [3] [4] [6])).1.pingLatencySampleCount = 11 ∧
      (processHistory (BandwidthTracker.mk 1000 7 8 9 10 11 12 none true)
        (HistoryResponse.mk 500 [1] [2] [3] [4] [6])).1.pingDropCount = 12 ∧
      (processHistory (BandwidthTracker.mk 1000 7 8 9 10 11 12 none true)
        (HistoryResponse.mk 500 [1] [2] [3] [4] [6])).1.lastCurrent = 500) :=
  ⟨by decide, rfl, by decide,
    C4_sequence_regression (BandwidthTracker.mk 1000 7 8 9 10 11 12 none true)
      (HistoryResponse.mk 500 [1] [2] [3] [4] [6]) (by decide) rfl (by decide)⟩

/-- C6: on an initialized accumulator, an update carrying the same sequence
value as the last integrated one changes none of the six cumulative totals
(idempotence with respect to repeated sequence values). -/
theorem C6_idempotent_same_sequence (bt : BandwidthTracker) (h : HistoryResponse)
    (hv : h.Valid) (hi : bt.inited = true) (heq : h.Current = bt.lastCurrent) :
    (processHistory bt h).1.downloadBytesTotal = bt.downloadBytesTotal ∧
    (processHistory bt h).1.uploadBytesTotal = bt.uploadBytesTotal ∧
    (processHistory bt h).1.energyJoulesTotal = bt.energyJoulesTotal ∧
    (processHistory bt h).1.pingLatencySecondsSum = bt.pingLatencySecondsSum ∧
    (processHistory bt h).1.pingLatencySampleCount = bt.pingLatencySampleCount ∧
    (processHistory bt h).1.pingDropCount = bt.pingDropCount ∧
    (processHistory bt h).1.lastCurrent = bt.lastCurrent := by
  rw [processHistory_same bt h hv hi heq]
  exact ⟨rfl, rfl, rfl, rfl, rfl, rfl, rfl⟩

/-- Witness for C6 at a concrete initialized state and repeated sequence. -/
theorem C6_idempotent_same_sequence_witness :
    (HistoryResponse.mk 1000 [1] [2] [3] [4] [6]).Valid ∧
    (BandwidthTracker.mk 1000 7 8 9 10 11 12 none true).inited = true ∧
    ((processHistory (BandwidthTracker.mk 1000 7 8 9 10 11 12 none true)
        (HistoryResponse.mk 1000 [1] [2] [3] [4] [6])).1.downloadBytesTotal = 7 ∧
      (processHistory (BandwidthTracker.mk 1000 7 8 9 10 11 12 none true)
        (HistoryResponse.mk 1000 [1] [2] [3] [4] [6])).1.uploadBytesTotal = 8 ∧
      (processHistory (BandwidthTracker.mk 1000 7 8 9 10 11 12 none true)
        (HistoryResponse.mk 1000 [1] [2] [3] [4] [6])).1.energyJoulesTotal = 9 ∧
      (processHistory (BandwidthTracker.mk 1000 7 8 9 10 11 12 none true)
        (HistoryResponse.mk 1000 [1] [2] [3] [4] [6])).1.pingLatencySecondsSum = 10 ∧
      (processHistory (BandwidthTracker.mk 1000 7 8 9 10 11 12 none true)
        (HistoryResponse.mk 1000 [1] [2] [3] [4] [6])).1.pingLatencySampleCount = 11 ∧
      (processHistory (BandwidthTracker.mk 1000 7 8 9 10 11 12 none true)
        (HistoryResponse.mk 1000 [1] [2] [3] [4] [6])).1.pingDropCount = 12 ∧
      (processHistory (BandwidthTracker.mk 1000 7 8 9 10 11 12 none true)
        (HistoryResponse.mk 1000 [1] [2] [3] [4] [6])).1.lastCurrent = 1000) :=
  ⟨by decide, rfl,
    C6_idempotent_same_sequence (BandwidthTracker.mk 1000 7 8 9 10 11 12 none true)
      (HistoryResponse.mk 1000 [1] [2] [3] [4] [6]) (by decide) rfl rfl⟩

/-- C9: `processHistory` clears `lastError` before validation, on every path:
its result always carries `lastError = nil`, so a snapshot that fails
validation still erases a previously recorded transport error, and a
validation failure leaves `lastError` nil rather than holding a validation
error. -/
theorem C9_lastError_always_cleared (bt : BandwidthTracker) (h : HistoryResponse) :
    (processHistory bt h).1.lastError = none := by
  by_cases h0 : h.DownlinkThroughputBps.length = 0
  · rw [processHistory_empty bt h h0]
  · by_cases hm : h.UplinkThroughputBps.length ≠ h.DownlinkThroughputBps.length ∨
        h.PowerIn.length ≠ h.DownlinkThroughputBps.length ∨
        h.PopPingLatencyMs.length ≠ h.DownlinkThroughputBps.length ∨
        h.PopPingDropRate.length ≠ h.DownlinkThroughputBps.length
    · rw [processHistory_mismatch bt h h0 hm]
    · push_neg at hm
      have hv : h.Valid := ⟨h0, hm.1, hm.2.1, hm.2.2.1, hm.2.2.2⟩
      cases hi : bt.inited with
      | false => rw [processHistory_first bt h hv hi]
      | true =>
        rcases lt_trichotomy h.Current bt.lastCurrent with hlt | heq | hgt
        · rw [processHistory_reset bt h hv hi hlt]
        · rw [processHistory_same bt h hv hi heq]
        · rw [processHistory_integrate bt h hv hi hgt]

/-- C2 counterexample: on a length-mismatched snapshot arriving while a
transport error is recorded, the accumulator state is not left untouched and
no validation error is recorded: `lastError` goes from the transport error to
nil.  (The mismatch itself is logged at error level, but never stored.) -/
theorem C2_counterexample :
    (processHistory (BandwidthTracker.mk 5 0 0 0 0 0 0 (Option.some transportFailureMsg) true)
        (HistoryResponse.mk 6 [1] [1, 2] [1] [1] [1])).1.lastError = none ∧
    (processHistory (BandwidthTracker.mk 5 0 0 0 0 0 0 (Option.some transportFailureMsg) true)
        (HistoryResponse.mk 6 [1] [1, 2] [1] [1] [1])).1 ≠
      BandwidthTracker.mk 5 0 0 0 0 0 0 (Option.some transportFailureMsg) true ∧
    (processHistory (BandwidthTracker.mk 5 0 0 0 0 0 0 (Option.some transportFailureMsg) true)
        (HistoryResponse.mk 6 [1] [1, 2] [1] [1] [1])).2 =
      [⟨.error, "Array length mismatch"⟩] := by
  refine ⟨by decide, by decide, by decide⟩

/-- C2 (amended): if any of the five sample arrays has a length different
from the others, or the arrays are empty, the update is discarded and the
failure is logged (error level for a mismatch, warning level for empty
arrays): the six cumulative totals, `lastSequence` and the initialized flag
are unchanged, while `lastError` is reset to nil rather than holding a
validation error. -/
theorem C2_validation_failure (bt : BandwidthTracker) (h : HistoryResponse)
    (hv : ¬ h.Valid) :
    (processHistory bt h).1.downloadBytesTotal = bt.downloadBytesTotal ∧
    (processHistory bt h).1.uploadBytesTotal = bt.uploadBytesTotal ∧
    (processHistory bt h).1.energyJoulesTotal = bt.energyJoulesTotal ∧
    (processHistory bt h).1.pingLatencySecondsSum = bt.pingLatencySecondsSum ∧
    (processHistory bt h).1.pingLatencySampleCount = bt.pingLatencySampleCount ∧
    (processHistory bt h).1.pingDropCount = bt.pingDropCount ∧
    (processHistory bt h).1.lastCurrent = bt.lastCurrent ∧
    (processHistory bt h).1.inited = bt.inited ∧
    (processHistory bt h).1.lastError = none ∧
    (processHistory bt h).2 =
      (if h.DownlinkThroughputBps.length = 0 then
        [⟨.warn, "Empty history arrays"⟩]
      else [⟨.error, "Array length mismatch"⟩]) := by
  by_cases h0 : h.DownlinkThroughputBps.length = 0
  · rw [processHistory_empty bt h h0]
    exact ⟨rfl, rfl, rfl, rfl, rfl, rfl, rfl, rfl, rfl, by rw [if_pos h0]⟩
  · have hm : h.UplinkThroughputBps.length ≠ h.DownlinkThroughputBps.length ∨
        h.PowerIn.length ≠ h.DownlinkThroughputBps.length ∨
        h.PopPingLatencyMs.length ≠ h.DownlinkThroughputBps.length ∨
        h.PopPingDropRate.length ≠ h.DownlinkThroughputBps.length := by
      by_contra hc
      push_neg at hc
      exact hv ⟨h0, hc.1, hc.2.1, hc.2.2.1, hc.2.2.2⟩
    rw [processHistory_mismatch bt h h0 hm]
    exact ⟨rfl, rfl, rfl, rfl, rfl, rfl, rfl, rfl, rfl, by rw [if_neg h0]⟩

/-- Witness for the amended C2 at a concrete mismatched snapshot. -/
theorem C2_validation_failure_witness :
    ¬ (HistoryResponse.mk 6 [1] [1, 2] [1] [1] [1]).Valid ∧
    ((processHistory (BandwidthTracker.mk 5 7 8 9 10 11 12 none true)
        (HistoryResponse.mk 6 [1] [1, 2] [1] [1] [1])).1.downloadBytesTotal = 7 ∧
      (processHistory (BandwidthTracker.mk 5 7 8 9 10 11 12 none true)
        (HistoryResponse.mk 6 [1] [1, 2] [1] [1] [1])).1.uploadBytesTotal = 8 ∧
      (processHistory (BandwidthTracker.mk 5 7 8 9 10 11 12 none true)
        (HistoryResponse.mk 6 [1] [1, 2] [1] [1] [1])).1.energyJoulesTotal = 9 ∧
      (processHistory (BandwidthTracker.mk 5 7 8 9 10 11 12 none true)
        (HistoryResponse.mk 6 [1] [1, 2] [1] [1] [1])).1.pingLatencySecondsSum = 10 ∧
      (processHistory (BandwidthTracker.mk 5 7 8 9 10 11 12 none true)
        (HistoryResponse.mk 6 [1] [1, 2] [1] [1] [1])).1.pingLatencySampleCount = 11 ∧
      (processHistory (BandwidthTracker.mk 5 7 8 9 10 11 12 none true)
        (HistoryResponse.mk 6 [1] [1, 2] [1] [1] [1])).1.pingDropCount = 12 ∧
      (processHistory (BandwidthTracker.mk 5 7 8 9 10 11 12 none true)
        (HistoryResponse.mk 6 [1] [1, 2] [1] [1] [1])).1.lastCurrent = 5 ∧
      (processHistory (BandwidthTracker.mk 5 7 8 9 10 11 12 none true)
        (HistoryResponse.mk 6 [1] [1, 2] [1] [1] [1])).1.inited = true ∧
      (processHistory (BandwidthTracker.mk 5 7 8 9 10 11 12 none true)
        (HistoryResponse.mk 6 [1] [1, 2] [1] [1] [1])).1.lastError = none ∧
      (processHistory (BandwidthTracker.mk 5 7 8 9 10 11 12 none true)
        (HistoryResponse.mk 6 [1] [1, 2] [1] [1] [1])).2 =
        (if (HistoryResponse.mk 6 [1] [1, 2] [1] [1] [1]).DownlinkThroughputBps.length = 0 then
          [⟨.warn, "Empty history arrays"⟩]
        else [⟨.error, "Array length mismatch"⟩])) :=
  ⟨by decide,
    C2_validation_failure (BandwidthTracker.mk 5 7 8 9 10 11 12 none true)
      (HistoryResponse.mk 6 [1] [1, 2] [1] [1] [1]) (by decide)⟩

/-- C7: over any sequence of poller ticks whose successfully fetched
snapshots carry only nonnegative samples, none of the six cumulative totals
ever decreases. -/
theorem C7_totals_monotone (bt : BandwidthTracker)
    (fs : List (Except String HistoryResponse))
    (hn : ∀ f ∈ fs, FetchNonneg f) :
    totalsLe bt (applyUpdates bt fs) := by
  induction fs generalizing bt with
  | nil => exact totalsLe_refl bt
  | cons f fs ih =>
    have h1 : totalsLe bt (update bt f).1 :=
      update_totalsLe bt f (hn f (List.mem_cons_self _ _))
    have h2 : totalsLe (update bt f).1 (applyUpdates (update bt f).1 fs) :=
      ih ((update bt f).1) (fun g hg => hn g (List.mem_cons_of_mem _ hg))
    exact totalsLe_trans h1 h2

/-- Witness for C7 over a concrete tick sequence mixing a successful fetch, a
fetch failure, and a second successful fetch. -/
theorem C7_totals_monotone_witness :
    (∀ f ∈ ([Except.ok (HistoryResponse.mk 5 [1] [2] [3] [4] [6]),
        Except.error boomMsg,
        Except.ok (HistoryResponse.mk 7 [1] [2] [3] [4] [6])] :
        List (Except String HistoryResponse)), FetchNonneg f) ∧
    totalsLe NewBandwidthTracker
      (applyUpdates NewBandwidthTracker
        [Except.ok (HistoryResponse.mk 5 [1] [2] [3] [4] [6]),
          Except.error boomMsg,
          Except.ok (HistoryResponse.mk 7 [1] [2] [3] [4] [6])]) :=
  ⟨by decide,
    C7_totals_monotone NewBandwidthTracker
      [Except.ok (HistoryResponse.mk 5 [1] [2] [3] [4] [6]),
        Except.error boomMsg,
        Except.ok (HistoryResponse.mk 7 [1] [2] [3] [4] [6])] (by decide)⟩

/-- C8: on a scrape whose status fetch fails, `Collect` emits exactly the
availability indicator with value 0 followed by the six cumulative counters
read from the accumulator, and none of the instantaneous gauges and no
device-info metric; the scrape reads the accumulator only through its
snapshot getters and leaves its state unchanged (in this embedding `Collect`
is a pure function of the tracker state). -/
theorem C8_status_failure_scrape (bt : BandwidthTracker) (e : String) :
    Collect bt (.error e) =
      [⟨"starlink_up", 0, []⟩,
        ⟨"starlink_download_bytes_total", bt.downloadBytesTotal, []⟩,
        ⟨"starlink_upload_bytes_total", bt.uploadBytesTotal, []⟩,
        ⟨"starlink_energy_joules_total", bt.energyJoulesTotal, []⟩,
        ⟨"starlink_ping_latency_seconds_sum", bt.pingLatencySecondsSum, []⟩,
        ⟨"starlink_ping_latency_seconds_count", bt.pingLatencySampleCount, []⟩,
        ⟨"starlink_ping_drop_total", bt.pingDropCount, []⟩] ∧
    (∀ n ∈ gaugeNames, n ∉ (Collect bt (.error e)).map Metric.name) ∧
    "starlink_info" ∉ (Collect bt (.error e)).map Metric.name := by
  have hnames : (Collect bt (.error e)).map Metric.name =
      ["starlink_up", "starlink_download_bytes_total", "starlink_upload_bytes_total",
        "starlink_energy_joules_total", "starlink_ping_latency_seconds_sum",
        "starlink_ping_latency_seconds_count", "starlink_ping_drop_total"] := rfl
  refine ⟨rfl, ?_, ?_⟩
  · rw [hnames]; decide
  · rw [hnames]; decide

/-- C3: on an initialized accumulator, a valid snapshot whose sequence delta
exceeds the buffer length `N` has its delta capped to `N`: exactly `N`
samples are integrated, the window visits each buffer index exactly once,
the ping sample count increases by exactly `N`, and `lastSequence` is set to
the sequence of the snapshot. -/
theorem C3_overrun_capped (bt : BandwidthTracker) (h : HistoryResponse)
    (hv : h.Valid) (hi : bt.inited = true)
    (hgt : h.DownlinkThroughputBps.length < h.Current - bt.lastCurrent) :
    procDelta bt h = h.DownlinkThroughputBps.length ∧
    (visitedIndices bt.lastCurrent (procDelta bt h)
        h.DownlinkThroughputBps.length).length = h.DownlinkThroughputBps.length ∧
    (∀ j < h.DownlinkThroughputBps.length,
      (visitedIndices bt.lastCurrent (procDelta bt h)
        h.DownlinkThroughputBps.length).count j = 1) ∧
    (processHistory bt h).1.pingLatencySampleCount =
      bt.pingLatencySampleCount + (h.DownlinkThroughputBps.length : ℚ) ∧
    (processHistory bt h).1.lastCurrent = h.Current := by
  have hN0 : 0 < h.DownlinkThroughputBps.length := Nat.pos_of_ne_zero hv.1
  have hlt : bt.lastCurrent < h.Current := by omega
  have hd : procDelta bt h = h.DownlinkThroughputBps.length := by
    unfold procDelta
    rw [if_pos hgt]
  refine ⟨hd, ?_, ?_, ?_, ?_⟩
  · rw [hd, visitedIndices_length]
  · intro j hj
    rw [hd]
    exact visitedIndices_count bt.lastCurrent _ hN0 j hj
  · rw [processHistory_integrate bt h hv hi hlt, hd]
  · rw [processHistory_integrate bt h hv hi hlt]

/-- Witness for C3: buffer length 3, last sequence 10, snapshot sequence 20
(delta 10 > 3). -/
theorem C3_overrun_capped_witness :
    (HistoryResponse.mk 20 [1, 2, 4] [1, 2, 4] [1, 2, 4] [1, 2, 4] [1, 2, 4]).Valid ∧
    (BandwidthTracker.mk 10 0 0 0 0 0 0 none true).inited = true ∧
    ((HistoryResponse.mk 20 [1, 2, 4] [1, 2, 4] [1, 2, 4] [1, 2, 4]
        [1, 2, 4]).DownlinkThroughputBps.length <
      20 - (BandwidthTracker.mk 10 0 0 0 0 0 0 none true).lastCurrent) ∧
    (procDelta (BandwidthTracker.mk 10 0 0 0 0 0 0 none true)
        (HistoryResponse.mk 20 [1, 2, 4] [1, 2, 4] [1, 2, 4] [1, 2, 4] [1, 2, 4]) = 3 ∧
      (visitedIndices 10
        (procDelta (BandwidthTracker.mk 10 0 0 0 0 0 0 none true)
          (HistoryResponse.mk 20 [1, 2, 4] [1, 2, 4] [1, 2, 4] [1, 2, 4] [1, 2, 4])) 3).length = 3 ∧
      (∀ j < 3,
        (visitedIndices 10
          (procDelta (BandwidthTracker.mk 10 0 0 0 0 0 0 none true)
            (HistoryResponse.mk 20 [1, 2, 4] [1, 2, 4] [1, 2, 4] [1, 2, 4] [1, 2, 4])) 3).count j = 1) ∧
      (processHistory (BandwidthTracker.mk 10 0 0 0 0 0 0 none true)
        (HistoryResponse.mk 20 [1, 2, 4] [1, 2, 4] [1, 2, 4] [1, 2, 4]
          [1, 2, 4])).1.pingLatencySampleCount = 0 + (3 : ℚ) ∧
      (processHistory (BandwidthTracker.mk 10 0 0 0 0 0 0 none true)
        (HistoryResponse.mk 20 [1, 2, 4] [1, 2, 4] [1, 2, 4] [1, 2, 4]
          [1, 2, 4])).1.lastCurrent = 20) :=
  ⟨by decide, rfl, by decide,
    C3_overrun_capped (BandwidthTracker.mk 10 0 0 0 0 0 0 none true)
      (HistoryResponse.mk 20 [1, 2, 4] [1, 2, 4] [1, 2, 4] [1, 2, 4] [1, 2, 4])
      (by decide) rfl (by decide)⟩

set_option maxRecDepth 40000 in
/-- C1 counterexample: with `N = 900`, last sequence `s = 1000` and next
sequence `1003`, the integration loop visits buffer indices `100, 101, 102`
(computed as `(lastSequence + i) mod N` for `i = 0, 1, 2`), not the
`101, 102, 103` the claim states: a download sample of `8` placed at index
`100` is integrated (adding `1` byte), while a sample of `800` at index
`103` — the only index whose claimed contribution would be `100` bytes — is
not. -/
theorem C1_counterexample :
    visitedIndices 1000 3 900 = [100, 101, 102] ∧
    ([100, 101, 102] : List ℕ) ≠ [101, 102, 103] ∧
    (processHistory (BandwidthTracker.mk 1000 0 0 0 0 0 0 none true)
        (HistoryResponse.mk 1003
          (((List.replicate 900 (0 : ℚ)).set 100 8).set 103 800)
          (List.replicate 900 0) (List.replicate 900 0)
          (List.replicate 900 0) (List.replicate 900 0))).1.downloadBytesTotal = 1 ∧
    (1 : ℚ) ≠ 100 := by
  have hlen : (((List.replicate 900 (0 : ℚ)).set 100 8).set 103 800).length = 900 := by
    simp
  have hv : (HistoryResponse.mk 1003
      (((List.replicate 900 (0 : ℚ)).set 100 8).set 103 800)
      (List.replicate 900 0) (List.replicate 900 0)
      (List.replicate 900 0) (List.replicate 900 0)).Valid := by
    refine ⟨?_, ?_, ?_, ?_, ?_⟩ <;> simp
  have hpd : procDelta (BandwidthTracker.mk 1000 0 0 0 0 0 0 none true)
      (HistoryResponse.mk 1003
        (((List.replicate 900 (0 : ℚ)).set 100 8).set 103 800)
        (List.replicate 900 0) (List.replicate 900 0)
        (List.replicate 900 0) (List.replicate 900 0)) = 3 := by
    simp [procDelta]
  have g100 : (((List.replicate 900 (0 : ℚ)).set 100 8).set 103 800).getD 100 0 = 8 := by
    rw [List.getD_eq_getElem?_getD, List.getElem?_set_ne (by norm_num),
      List.getElem?_set_self (by simp)]
    rfl
  have g101 : (((List.replicate 900 (0 : ℚ)).set 100 8).set 103 800).getD 101 0 = 0 := by
    rw [List.getD_eq_getElem?_getD, List.getElem?_set_ne (by norm_num),
      List.getElem?_set_ne (by norm_num), List.getElem?_replicate_of_lt (by norm_num)]
    rfl
  have g102 : (((List.replicate 900 (0 : ℚ)).set 100 8).set 103 800).getD 102 0 = 0 := by
    rw [List.getD_eq_getElem?_getD, List.getElem?_set_ne (by norm_num),
      List.getElem?_set_ne (by norm_num), List.getElem?_replicate_of_lt (by norm_num)]
    rfl
  refine ⟨by decide, by decide, ?_, by norm_num⟩
  rw [processHistory_integrate _ _ hv rfl (by decide)]
  simp only [hpd, hlen]
  have hidx : visitedIndices 1000 3 900 = [100, 101, 102] := by decide
  rw [hidx]
  simp only [List.map_cons, List.map_nil, g100, g101, g102,
    List.sum_cons, List.sum_nil]
  norm_num

/-- C1 (amended): for a buffer of length `N`, after an update with sequence
`s`, a later valid update with sequence `s + k` (`0 < k ≤ N`) integrates
exactly the samples at buffer indices `s mod N` through `(s + k - 1) mod N`,
visiting index `(lastSequence + i) mod N` for each `i` in `[0, delta)` in
ascending order; in particular with `N = 900`, `s = 1000` and next sequence
`1003`, the indices visited are `100, 101, 102`. -/
theorem C1_integration_window (bt : BandwidthTracker) (h : HistoryResponse)
    (k : ℕ) (hv : h.Valid) (hi : bt.inited = true)
    (hcur : h.Current = bt.lastCurrent + k) (hk0 : 0 < k)
    (hkN : k ≤ h.DownlinkThroughputBps.length) :
    (processHistory bt h).1.downloadBytesTotal =
      bt.downloadBytesTotal +
        ((visitedIndices bt.lastCurrent k h.DownlinkThroughputBps.length).map
          (fun idx => h.DownlinkThroughputBps.getD idx 0 / 8)).sum ∧
    (processHistory bt h).1.uploadBytesTotal =
      bt.uploadBytesTotal +
        ((visitedIndices bt.lastCurrent k h.DownlinkThroughputBps.length).map
          (fun idx => h.UplinkThroughputBps.getD idx 0 / 8)).sum ∧
    (processHistory bt h).1.energyJoulesTotal =
      bt.energyJoulesTotal +
        ((visitedIndices bt.lastCurrent k h.DownlinkThroughputBps.length).map
          (fun idx => h.PowerIn.getD idx 0)).sum ∧
    (processHistory bt h).1.pingLatencySecondsSum =
      bt.pingLatencySecondsSum +
        ((visitedIndices bt.lastCurrent k h.DownlinkThroughputBps.length).map
          (fun idx => h.PopPingLatencyMs.getD idx 0 / 1000)).sum ∧
    (processHistory bt h).1.pingDropCount =
      bt.pingDropCount +
        ((visitedIndices bt.lastCurrent k h.DownlinkThroughputBps.length).map
          (fun idx => h.PopPingDropRate.getD idx 0)).sum ∧
    (processHistory bt h).1.pingLatencySampleCount =
      bt.pingLatencySampleCount + (k : ℚ) ∧
    (processHistory bt h).1.lastCurrent = h.Current ∧
    visitedIndices bt.lastCurrent k h.DownlinkThroughputBps.length =
      (List.range k).map
        (fun i => (bt.lastCurrent + i) % h.DownlinkThroughputBps.length) := by
  have hlt : bt.lastCurrent < h.Current := by omega
  have hd : procDelta bt h = k := by
    unfold procDelta
    rw [hcur]
    have hsub : bt.lastCurrent + k - bt.lastCurrent = k := by omega
    rw [hsub, if_neg (by omega)]
  rw [processHistory_integrate bt h hv hi hlt, hd]
  exact ⟨rfl, rfl, rfl, rfl, rfl, rfl, rfl, rfl⟩

/-- Witness for the amended C1: buffer length 5, last sequence 10, snapshot
sequence 13; indices visited are `10 mod 5 = 0`, `11 mod 5 = 1`,
`12 mod 5 = 2`. -/
theorem C1_integration_window_witness :
    (HistoryResponse.mk 13 [8, 16, 24, 32, 40] [4, 4, 4, 4, 4]
      [20, 20, 20, 20, 20] [0, 1, 0, 1, 0] [1, 1, 1, 1, 1]).Valid ∧
    (BandwidthTracker.mk 10 0 0 0 0 0 0 none true).inited = true ∧
    (13 : ℕ) = 10 + 3 ∧ (0 : ℕ) < 3 ∧ (3 : ℕ) ≤ 5 ∧
    ((processHistory (BandwidthTracker.mk 10 0 0 0 0 0 0 none true)
        (HistoryResponse.mk 13 [8, 16, 24, 32, 40] [4, 4, 4, 4, 4]
          [20, 20, 20, 20, 20] [0, 1, 0, 1, 0] [1, 1, 1, 1, 1])).1.downloadBytesTotal =
        0 + ((visitedIndices 10 3 5).map
          (fun idx => ([8, 16, 24, 32, 40] : List ℚ).getD idx 0 / 8)).sum ∧
      (processHistory (BandwidthTracker.mk 10 0 0 0 0 0 0 none true)
        (HistoryResponse.mk 13 [8, 16, 24, 32, 40] [4, 4, 4, 4, 4]
          [20, 20, 20, 20, 20] [0, 1, 0, 1, 0] [1, 1, 1, 1, 1])).1.uploadBytesTotal =
        0 + ((visitedIndices 10 3 5).map
          (fun idx => ([4, 4, 4, 4, 4] : List ℚ).getD idx 0 / 8)).sum ∧
      (processHistory (BandwidthTracker.mk 10 0 0 0 0 0 0 none true)
        (HistoryResponse.mk 13 [8, 16, 24, 32, 40] [4, 4, 4, 4, 4]
          [20, 20, 20, 20, 20] [0, 1, 0, 1, 0] [1, 1, 1, 1, 1])).1.energyJoulesTotal =
        0 + ((visitedIndices 10 3 5).map
          (fun idx => ([1, 1, 1, 1, 1] : List ℚ).getD idx 0)).sum ∧
      (processHistory (BandwidthTracker.mk 10 0 0 0 0 0 0 none true)
        (HistoryResponse.mk 13 [8, 16, 24, 32, 40] [4, 4, 4, 4, 4]
          [20, 20, 20, 20, 20] [0, 1, 0, 1, 0] [1, 1, 1, 1, 1])).1.pingLatencySecondsSum =
        0 + ((visitedIndices 10 3 5).map
          (fun idx => ([20, 20, 20, 20, 20] : List ℚ).getD idx 0 / 1000)).sum ∧
      (processHistory (BandwidthTracker.mk 10 0 0 0 0 0 0 none true)
        (HistoryResponse.mk 13 [8, 16, 24, 32, 40] [4, 4, 4, 4, 4]
          [20, 20, 20, 20, 20] [0, 1, 0, 1, 0] [1, 1, 1, 1, 1])).1.pingDropCount =
        0 + ((visitedIndices 10 3 5).map
          (fun idx => ([0, 1, 0, 1, 0] : List ℚ).getD idx 0)).sum ∧
      (processHistory (BandwidthTracker.mk 10 0 0 0 0 0 0 none true)
        (HistoryResponse.mk 13 [8, 16, 24, 32, 40] [4, 4, 4, 4, 4]
          [20, 20, 20, 20, 20] [0, 1, 0, 1, 0] [1, 1, 1, 1, 1])).1.pingLatencySampleCount =
        0 + (3 : ℚ) ∧
      (processHistory (BandwidthTracker.mk 10 0 0 0 0 0 0 none true)
        (HistoryResponse.mk 13 [8, 16, 24, 32, 40] [4, 4, 4, 4, 4]
          [20, 20, 20, 20, 20] [0, 1, 0, 1, 0] [1, 1, 1, 1, 1])).1.lastCurrent = 13 ∧
      visitedIndices 10 3 5 = (List.range 3).map (fun i => (10 + i) % 5)) :=
  ⟨by decide, rfl, rfl, by decide, by decide,
    C1_integration_window (BandwidthTracker.mk 10 0 0 0 0 0 0 none true)
      (HistoryResponse.mk 13 [8, 16, 24, 32, 40] [4, 4, 4, 4, 4]
        [20, 20, 20, 20, 20] [0, 1, 0, 1, 0] [1, 1, 1, 1, 1]) 3 (by decide) rfl rfl
      (by decide) (by decide)⟩

end Starlink
